import Mathlib

/-!
# Verification of the TeensyWinkeyEmulator audio/control core

Shallow embedding of the side-tone envelope mixer (`TeensyAudioTone`),
the analog-input denoiser, the MIDI control-channel decoder, and the
parameter-controller operations of the TeensyWinkeyEmulator repository,
together with theorems settling the specification's claims about them.

Conventions of the embedding:
* C machine integers are modelled as `Nat` / `Int`; all arithmetic stays
  far below the relevant word sizes, and clamps from the source are kept.
* `float` values that the claims depend on are exact in IEEE single
  precision (0.0, small decimal table entries, n/16384); they are
  modelled as `Rat`.
* The Teensy audio library delivers blocks of signed 16-bit samples; a
  block is modelled as `List Int`, an absent block (`receiveReadOnly`
  returning NULL) as `none`.
* External side effects (`speed_set`, `usbMIDI.send...`,
  `sine.frequency`, `sine.amplitude`, codec volume, `setTone`,
  `muteAudioIn`) are reified as an `Effect` trace.
-/

namespace TWKE

/-- Signed 16-bit audio samples, as found in `audio_block_t::data`. -/
abbrev Sample := Int

/-- `AUDIO_BLOCK_SAMPLES` of the Teensy audio library (128). -/
def AUDIO_BLOCK_SAMPLES : Nat := 128

/-- `WINDOW_TABLE_LENGTH` from `TeensyAudioTone.cpp`. -/
def WINDOW_TABLE_LENGTH : Nat := 128

/-- The Hann-window ramp table `window_table` of `TeensyAudioTone.cpp`:
128 int32 gain coefficients scaled so that full scale is `2^31`. -/
def window_table : List Int := [
     318397,    1273398,    2864439,    5090574,    7950483,   11442471,   15564467,   20314026,
   25688331,   31684195,   38298062,   45526009,   53363751,   61806638,   70849664,   80487465,
   90714326,  101524182,  112910621,  124866892,  137385902,  150460228,  164082115,  178243486,
  192935941,  208150767,  223878941,  240111135,  256837722,  274048782,  291734109,  309883213,
  328485332,  347529432,  367004221,  386898147,  407199413,  427895979,  448975571,  470425686,
  492233605,  514386393,  536870912,  559673828,  582781618,  606180576,  629856827,  653796328,
  677984882,  702408144,  727051629,  751900723,  776940687,  802156673,  827533725,  853056793,
  878710740,  904480353,  930350348,  956305383,  982330065, 1008408960, 1034526600, 1060667498,
 1086816150, 1112957048, 1139074688, 1165153583, 1191178265, 1217133300, 1243003295, 1268772908,
 1294426855, 1319949923, 1345326975, 1370542961, 1395582925, 1420432019, 1445075504, 1469498766,
 1493687320, 1517626821, 1541303072, 1564702030, 1587809820, 1610612736, 1633097255, 1655250043,
 1677057962, 1698508077, 1719587669, 1740284235, 1760585501, 1780479427, 1799954216, 1818998316,
 1837600435, 1855749539, 1873434866, 1890645926, 1907372513, 1923604707, 1939332881, 1954547707,
 1969240162, 1983401533, 1997023420, 2010097746, 2022616756, 2034573027, 2045959466, 2056769322,
 2066996183, 2076633984, 2085677010, 2094119897, 2101957639, 2109185586, 2115799453, 2121795317,
 2127169622, 2131919181, 2136041177, 2139533165, 2142393074, 2144619209, 2146210250, 2147165251]

/-- `multiply_32x32_rshift32` (ARM `SMMUL`): bits 63..32 of the signed
64-bit product, i.e. the floor of `a*b / 2^32`. -/
def multiply_32x32_rshift32 (a b : Int) : Int :=
  Int.fdiv (a * b) (2 ^ 32)

/-- One sample of the ramp-up loop of `TeensyAudioTone::update`
(`t = multiply_32x32_rshift32((x)<<1, window_table[windowindex++])`,
or the unattenuated sample once the index has reached the table end). -/
def rampUpSample (wi : Nat) (x : Sample) : Sample :=
  if wi < WINDOW_TABLE_LENGTH then
    multiply_32x32_rshift32 (2 * x) (window_table.getD wi 0)
  else
    x

/-- Index advance paired with `rampUpSample` (`windowindex++` happens
only while the index is still inside the table). -/
def rampUpNext (wi : Nat) : Nat :=
  if wi < WINDOW_TABLE_LENGTH then wi + 1 else wi

/-- One sample of the ramp-down loop of `TeensyAudioTone::update`
(`t = multiply_32x32_rshift32((x)<<1, window_table[--windowindex])`,
or forced silence once the index has reached 0). -/
def rampDownSample (wi : Nat) (x : Sample) : Sample :=
  if wi ≠ 0 then
    multiply_32x32_rshift32 (2 * x) (window_table.getD (wi - 1) 0)
  else
    0

/-- Index decrease paired with `rampDownSample`. -/
def rampDownNext (wi : Nat) : Nat :=
  wi - 1

/-- The ramp-up loop over a whole block: produces the side-tone output
samples and the final `windowindex`. -/
def rampUpBlock : Nat → List Sample → List Sample × Nat
  | wi, [] => ([], wi)
  | wi, x :: xs =>
      let r := rampUpBlock (rampUpNext wi) xs
      (rampUpSample wi x :: r.1, r.2)

/-- The ramp-down loop over a whole block (the caller has already
clamped `windowindex` to the table length, line 87 of the source). -/
def rampDownBlock : Nat → List Sample → List Sample × Nat
  | wi, [] => ([], wi)
  | wi, x :: xs =>
      let r := rampDownBlock (rampDownNext wi) xs
      (rampDownSample wi x :: r.1, r.2)

/-- The envelope gain in force at `windowindex = wi` during ramp-up:
the table entry while inside the table, full scale (`2^31`, i.e. the
sample passed unattenuated) once the index has reached the end. -/
def upGain (wi : Nat) : Int :=
  if wi < WINDOW_TABLE_LENGTH then window_table.getD wi 0 else 2 ^ 31

/-- The envelope gain in force at `windowindex = wi` during ramp-down:
the table entry below the index, exact silence at index 0. -/
def downGain (wi : Nat) : Int :=
  if wi ≠ 0 then window_table.getD (wi - 1) 0 else 0

/-- The table is strictly increasing step by step (checked entry-wise). -/
theorem window_table_step_mono :
    ∀ i : Fin 127, window_table.getD i.val 0 ≤ window_table.getD (i.val + 1) 0 := by
  decide

/-- The last table entry is below full scale. -/
theorem window_table_last_le : window_table.getD 127 0 ≤ 2 ^ 31 := by decide

/-- Ramp-up gains are monotone from one index to the next. -/
theorem upGain_step_mono (wi : Nat) : upGain wi ≤ upGain (wi + 1) := by
  unfold upGain
  by_cases h : wi + 1 < WINDOW_TABLE_LENGTH
  · have h0 : wi < WINDOW_TABLE_LENGTH := Nat.lt_of_succ_lt h
    rw [if_pos h0, if_pos h]
    have hlt : wi < 127 := by
      simpa [WINDOW_TABLE_LENGTH] using Nat.lt_of_succ_lt_succ h
    exact window_table_step_mono ⟨wi, hlt⟩
  · by_cases h0 : wi < WINDOW_TABLE_LENGTH
    · rw [if_pos h0, if_neg h]
      have : wi = 127 := by
        simp [WINDOW_TABLE_LENGTH] at h h0
        omega
      subst this
      exact window_table_last_le
    · rw [if_neg h0, if_neg h]

/-- Ramp-down gains are monotone from one index to the next (indices stay
within `0..128` thanks to the clamp at line 87 of the source). -/
theorem downGain_step_mono (wi : Nat) (h : wi < WINDOW_TABLE_LENGTH) :
    downGain wi ≤ downGain (wi + 1) := by
  unfold downGain
  by_cases h0 : wi = 0
  · subst h0
    rw [if_neg (by omega), if_pos (by omega)]
    have : (0:Int) ≤ window_table.getD 0 0 := by decide
    simpa using this
  · rw [if_pos h0, if_pos (by omega)]
    have hlt : wi - 1 < 127 := by
      simp [WINDOW_TABLE_LENGTH] at h
      omega
    have := window_table_step_mono ⟨wi - 1, hlt⟩
    simpa [Nat.sub_add_cancel (Nat.one_le_iff_ne_zero.mpr h0)] using this

/-- The mutable state of `TeensyAudioTone` that `update` touches:
the `tone` flag (set by `setTone`), the `windowindex` ramp position,
and whether the static `block_sidetone` scratch block has already been
allocated in an earlier cycle. -/
structure ToneState where
  tone : Bool
  windowindex : Nat
  haveSidetone : Bool
  deriving DecidableEq, Repr

/-- What one call of `TeensyAudioTone::update` did: the new state, how
many blocks were received and released on each input port (left,
right, sine), and the blocks transmitted on the two output ports. -/
structure UpdateResult where
  state : ToneState
  recL : Nat
  recR : Nat
  recS : Nat
  relL : Nat
  relR : Nat
  relS : Nat
  outL : Option (List Sample)
  outR : Option (List Sample)
  deriving DecidableEq, Repr

/-- `TeensyAudioTone::update` from `TeensyAudioTone.cpp`.  `allocOk`
says whether `allocate()` would succeed this cycle; `sine`, `inl`,
`inr` are the blocks `receiveReadOnly(2)`, `receiveReadOnly(0)`,
`receiveReadOnly(1)` would deliver (`none` = NULL).  The early returns
(allocation failure, missing tone block) receive and release nothing
further, exactly as in the source. -/
def TeensyAudioTone.update (s : ToneState) (allocOk : Bool)
    (sine inl inr : Option (List Sample)) : UpdateResult :=
  if s.haveSidetone = false ∧ allocOk = false then
    ⟨s, 0, 0, 0, 0, 0, 0, none, none⟩
  else
    let s1 : ToneState := ⟨s.tone, s.windowindex, true⟩
    match sine with
    | none => ⟨s1, 0, 0, 0, 0, 0, 0, none, none⟩
    | some bs =>
        let recL := if inl.isSome then 1 else 0
        let recR := if inr.isSome then 1 else 0
        if s.tone = true ∨ s.windowindex ≠ 0 then
          if s.tone = true then
            let p := rampUpBlock s.windowindex bs
            ⟨⟨s.tone, p.2, true⟩, recL, recR, 1, recL, recR, 1, some p.1, some p.1⟩
          else
            let p := rampDownBlock (min s.windowindex WINDOW_TABLE_LENGTH) bs
            ⟨⟨s.tone, p.2, true⟩, recL, recR, 1, recL, recR, 1, some p.1, some p.1⟩
        else
          ⟨⟨s.tone, 0, true⟩, recL, recR, 1, recL, recR, 1, inl, inr⟩

/-- `TeensyAudioTone::setTone` (only flips the flag, never the index). -/
def TeensyAudioTone.setTone (s : ToneState) (state : Bool) : ToneState :=
  { s with tone := state }

/-- Final window index of a ramp-up block: advances from the current
index, saturating at the table length. -/
theorem rampUpBlock_final (xs : List Sample) :
    ∀ wi : Nat, wi ≤ WINDOW_TABLE_LENGTH →
      (rampUpBlock wi xs).2 = min (wi + xs.length) WINDOW_TABLE_LENGTH := by
  induction xs with
  | nil => intro wi h; simp [rampUpBlock]; omega
  | cons x xs ih =>
      intro wi h
      simp only [rampUpBlock]
      by_cases hlt : wi < WINDOW_TABLE_LENGTH
      · rw [show rampUpNext wi = wi + 1 from if_pos hlt]
        rw [ih (wi + 1) (by omega)]
        simp [List.length_cons]
        omega
      · rw [show rampUpNext wi = wi from if_neg hlt]
        rw [ih wi h]
        simp [List.length_cons]
        omega

/-- First output sample of a ramp-up block starting inside the table:
the current table entry — the ramp resumes at the current index. -/
theorem rampUpBlock_head (wi : Nat) (h : wi < WINDOW_TABLE_LENGTH)
    (x : Sample) (xs : List Sample) :
    (rampUpBlock wi (x :: xs)).1.head? =
      some (multiply_32x32_rshift32 (2 * x) (window_table.getD wi 0)) := by
  simp [rampUpBlock, rampUpSample, if_pos h]

/-- The gain resuming a ramp-up at index `j` is the very gain the
ramp-down applied on its step from `j+1` down to `j`: no jump. -/
theorem upGain_eq_downGain_succ (j : Nat) (h : j < WINDOW_TABLE_LENGTH) :
    upGain j = downGain (j + 1) := by
  simp [upGain, downGain, if_pos h]

/-- C5: for every valid `windowindex`, the envelope gain applied to the
synthesized tone is monotonically non-decreasing along ramp-up and
non-increasing along ramp-down (the gain is monotone in the index, and
ramp-down walks the index downwards), equals exactly 0 at index 0, and
equals exactly full scale (`2^31`, the sample passed through
unattenuated) at index `N = 128`. -/
theorem claim_C5_envelope_gain :
    (∀ wi : Nat, upGain wi ≤ upGain (wi + 1)) ∧
    (∀ i : Fin WINDOW_TABLE_LENGTH, downGain i.val ≤ downGain (i.val + 1)) ∧
    downGain 0 = 0 ∧
    upGain WINDOW_TABLE_LENGTH = 2 ^ 31 ∧
    (∀ x : Sample, rampUpSample WINDOW_TABLE_LENGTH x = x) ∧
    (∀ x : Sample, rampDownSample 0 x = 0) := by
  refine ⟨upGain_step_mono, fun i => downGain_step_mono i.val i.isLt, rfl, ?_, ?_, ?_⟩
  · simp [upGain, WINDOW_TABLE_LENGTH]
  · intro x; simp [rampUpSample, WINDOW_TABLE_LENGTH]
  · intro x; simp [rampDownSample]

/-- C4: in every branch of `TeensyAudioTone::update` each input block is
released exactly as often as it was received (and at most once), and the
cycle skipped because the tone-source block is unavailable produces no
output and leaves the envelope state untouched (no crash, the cycle is
merely forfeited). -/
theorem claim_C4_blocks_released_once (s : ToneState) (allocOk : Bool)
    (sine inl inr : Option (List Sample)) :
    ((TeensyAudioTone.update s allocOk sine inl inr).relS =
      (TeensyAudioTone.update s allocOk sine inl inr).recS ∧
     (TeensyAudioTone.update s allocOk sine inl inr).relL =
      (TeensyAudioTone.update s allocOk sine inl inr).recL ∧
     (TeensyAudioTone.update s allocOk sine inl inr).relR =
      (TeensyAudioTone.update s allocOk sine inl inr).recR) ∧
    ((TeensyAudioTone.update s allocOk sine inl inr).recS ≤ 1 ∧
     (TeensyAudioTone.update s allocOk sine inl inr).recL ≤ 1 ∧
     (TeensyAudioTone.update s allocOk sine inl inr).recR ≤ 1) ∧
    ((TeensyAudioTone.update s allocOk none inl inr).outL = none ∧
     (TeensyAudioTone.update s allocOk none inl inr).outR = none ∧
     (TeensyAudioTone.update s allocOk none inl inr).state.tone = s.tone ∧
     (TeensyAudioTone.update s allocOk none inl inr).state.windowindex
        = s.windowindex) := by
  unfold TeensyAudioTone.update
  cases sine <;> cases inl <;> cases inr <;> split_ifs <;> simp_all

/-- C6: a key-down arriving while a ramp-down is still in progress
(`0 < windowindex < N`) makes the ramp-up resume from the current index:
the first gain applied is `window_table[windowindex]`, which is exactly
the gain the ramp-down used on its step from `windowindex+1` down to
`windowindex` (a continuous, no-jump envelope), the block leaves the
index at `min (windowindex + blocklen) N` (never reset to 0), and the
index stays positive — it is reset to 0 only in the inactive
pass-through state. -/
theorem claim_C6_keydown_resumes_ramp (j : Nat) (h0 : 0 < j)
    (h1 : j < WINDOW_TABLE_LENGTH) (s : ToneState) (hs : s.tone = true)
    (hw : s.windowindex = j) (allocOk : Bool) (hA : allocOk = true)
    (x : Sample) (xs bs : List Sample) (inl inr : Option (List Sample)) :
    (rampUpBlock j (x :: xs)).1.head? =
        some (multiply_32x32_rshift32 (2 * x) (window_table.getD j 0)) ∧
    upGain j = downGain (j + 1) ∧
    (TeensyAudioTone.update s allocOk (some bs) inl inr).state.windowindex =
        min (j + bs.length) WINDOW_TABLE_LENGTH ∧
    0 < (TeensyAudioTone.update s allocOk (some bs) inl inr).state.windowindex := by
  have hidx : (TeensyAudioTone.update s allocOk (some bs) inl inr).state.windowindex =
      min (j + bs.length) WINDOW_TABLE_LENGTH := by
    unfold TeensyAudioTone.update
    rw [if_neg (by simp [hA])]
    simp only [hs, hw]
    rw [if_pos (Or.inl trivial), if_pos trivial]
    exact rampUpBlock_final bs j (Nat.le_of_lt h1)
  refine ⟨rampUpBlock_head j h1 x xs, upGain_eq_downGain_succ j h1, hidx, ?_⟩
  rw [hidx]
  have : 0 < WINDOW_TABLE_LENGTH := by decide
  omega

/-- Witness for C6 at `windowindex = 5` with a concrete state and block. -/
theorem claim_C6_keydown_resumes_ramp_witness :
    (rampUpBlock 5 ([1000] : List Sample)).1.head? =
        some (multiply_32x32_rshift32 (2 * 1000) (window_table.getD 5 0)) ∧
    upGain 5 = downGain (5 + 1) ∧
    (TeensyAudioTone.update ⟨true, 5, true⟩ true (some [3, 4]) none none).state.windowindex =
        min (5 + ([3, 4] : List Sample).length) WINDOW_TABLE_LENGTH ∧
    0 < (TeensyAudioTone.update ⟨true, 5, true⟩ true (some [3, 4]) none none).state.windowindex :=
  claim_C6_keydown_resumes_ramp 5 (by decide) (by decide) ⟨true, 5, true⟩ rfl rfl
    true rfl 1000 [] [3, 4] none none

/-- Modelled from the spec: the repository snapshot contains the
`TeensyAudioTone` header with the `hangtime` field and the `ptt` caller
that invokes `teensyaudiotone.muteAudioIn(state)`, but the
implementation file holding `muteAudioIn` and the trailing-mute logic
of `update` is not among the sources.  Per the spec: while the mute
condition is asserted pass-through audio is replaced by silence; a
configurable number of trailing blocks (`muteCounter`, loaded from the
configured hang time) continue to suppress pass-through audio after
mute is lifted, decrementing once per executed cycle to zero, at which
point normal pass-through resumes. -/
structure MuteState where
  mute : Bool
  muteCounter : Nat
  hangtime : Nat
  deriving DecidableEq, Repr

/-- Modelled from the spec: asserting mute silences pass-through;
releasing it arms the trailing-mute countdown with the configured
hang time. -/
def TeensyAudioTone.muteAudioIn (m : MuteState) (state : Bool) : MuteState :=
  if state then { m with mute := true }
  else { m with mute := false, muteCounter := m.hangtime }

/-- Modelled from the spec: the pass-through path of one executed
`update` cycle — silence while muted, silence with one decrement per
cycle while the trailing counter is nonzero, the input block unmodified
otherwise. -/
def passThroughCycle (m : MuteState) (blk : List Sample) : MuteState × List Sample :=
  if m.mute then (m, List.replicate blk.length 0)
  else if m.muteCounter ≠ 0 then
    ({ m with muteCounter := m.muteCounter - 1 }, List.replicate blk.length 0)
  else (m, blk)

/-- Run the pass-through path over a sequence of executed cycles. -/
def runMute : MuteState → List (List Sample) → MuteState × List (List Sample)
  | m, [] => (m, [])
  | m, b :: bs =>
      let r := passThroughCycle m b
      let rest := runMute r.1 bs
      (rest.1, r.2 :: rest.2)

/-- With mute released and the counter equal to the number of leading
blocks, those blocks come out silent and the next block passes through
unmodified. -/
theorem runMute_trailing (lastB : List Sample) :
    ∀ (pre : List (List Sample)) (h : Nat),
      (runMute ⟨false, pre.length, h⟩ (pre ++ [lastB])).2 =
        pre.map (fun b => List.replicate b.length 0) ++ [lastB] := by
  intro pre
  induction pre with
  | nil => intro h; simp [runMute, passThroughCycle]
  | cons b pre ih =>
      intro h
      simp only [List.cons_append, runMute, passThroughCycle, List.length_cons,
        List.map_cons]
      rw [if_neg (by simp), if_pos (by simp)]
      simpa using ih h

/-- With mute released, the counter goes down by exactly one per
executed cycle (stopping at zero). -/
theorem runMute_counter :
    ∀ (bs : List (List Sample)) (c h : Nat),
      (runMute ⟨false, c, h⟩ bs).1.muteCounter = c - bs.length := by
  intro bs
  induction bs with
  | nil => intro c h; simp [runMute]
  | cons b bs ih =>
      intro c h
      simp only [runMute, passThroughCycle]
      rw [if_neg (by simp)]
      by_cases hc : c = 0
      · subst hc
        rw [if_neg (by simp)]
        rw [ih 0 h]
        simp
      · rw [if_pos (by simpa using hc)]
        rw [ih (c - 1) h]
        simp [List.length_cons]
        omega

/-- External side effects performed by `TeensyUSBAudioMidi`
(`src/src/TeensyUSBAudioMidi/TeensyUSBAudioMidi.cpp`): calls into the
keyer (`speed_set`), the oscillator (`sine.frequency`,
`sine.amplitude`), the codec master volume, the tone mixer
(`setTone`, `muteAudioIn`) and outbound USB-MIDI messages. -/
inductive Effect where
  | speed_set (v : Int)
  | sendControlChange (ctrl val chan : Int)
  | sendNoteOn (note vel chan : Int)
  | sendNow
  | sineFrequency (f : Int)
  | sineAmplitude (a : Rat)
  | codecVolume (v : Rat)
  | setTone (state : Int)
  | muteAudioIn (state : Int)
  deriving DecidableEq, Repr

/-- Configuration and volume shadow of `TeensyUSBAudioMidi`: the
recognized control channel `midi_ctrl`, the outbound note/controller
numbers and channel (negative = disabled), the `mute_on_ptt` policy
flag, and the `sine_level` shadow copy of the oscillator amplitude
(stored by the source but read by nothing in it). -/
structure PState where
  midi_ctrl : Nat
  midi_chan : Int
  midi_cw : Int
  midi_ptt : Int
  midi_speed : Int
  midi_pitch : Int
  mute_on_ptt : Bool
  sine_level : Rat
  deriving DecidableEq, Repr

/-- The two sequential clamps `if (val > 127) val=127; if (val < 0) val=0;`
used by the outbound wire reports. -/
def clamp0_127 (v : Int) : Int :=
  let v1 := if v > 127 then 127 else v
  if v1 < 0 then 0 else v1

/-- `TeensyUSBAudioMidi::sidetonefrequency`: set the oscillator
frequency and, if reporting is enabled, send the inverse-affine pitch
report `(127*freq - 50500)/600`, clamped to `0..127`. -/
def sidetonefrequency (s : PState) (freq : Int) : List Effect :=
  Effect.sineFrequency freq ::
    (if 0 ≤ s.midi_pitch ∧ 0 ≤ s.midi_chan then
      [Effect.sendControlChange s.midi_pitch
        (clamp0_127 (Int.tdiv (127 * freq - 50500) 600)) s.midi_chan]
    else [])

/-- `TeensyUSBAudioMidi::cwspeed`: forward the speed to the keyer via
`speed_set` and, if reporting is enabled, send the inverse-affine speed
report `(127*speed - 97)/59`, clamped to `0..127`. -/
def cwspeed (s : PState) (speed : Int) : List Effect :=
  Effect.speed_set speed ::
    (if 0 ≤ s.midi_speed ∧ 0 ≤ s.midi_chan then
      [Effect.sendControlChange s.midi_speed
        (clamp0_127 (Int.tdiv (127 * speed - 97) 59)) s.midi_chan]
    else [])

/-- `TeensyUSBAudioMidi::key`: switch the tone mixer and, if enabled,
send the key-down/up note. -/
def key (s : PState) (state : Int) : List Effect :=
  Effect.setTone state ::
    (if 0 ≤ s.midi_cw ∧ 0 ≤ s.midi_chan then
      [Effect.sendNoteOn s.midi_cw (if state ≠ 0 then 127 else 0) s.midi_chan,
       Effect.sendNow]
    else [])

/-- `TeensyUSBAudioMidi::ptt`: apply the mute policy to the mixer's
pass-through path (when `mute_on_ptt`) and, if enabled, send the PTT
note. -/
def ptt (s : PState) (state : Int) : List Effect :=
  (if s.mute_on_ptt then [Effect.muteAudioIn state] else []) ++
    (if 0 ≤ s.midi_ptt ∧ 0 ≤ s.midi_chan then
      [Effect.sendNoteOn s.midi_ptt (if state ≠ 0 then 127 else 0) s.midi_chan]
    else [])

/-- The 32-entry logarithmic volume table `VolTab` (exact in single
precision at the entries the claims use, modelled as rationals). -/
def VolTab : List Rat := [0, 0.0116, 0.0135, 0.0156, 0.0181, 0.021, 0.0244, 0.0283,
  0.0328, 0.0381, 0.0442, 0.0512, 0.0595, 0.069, 0.08, 0.0928,
  0.1077, 0.125, 0.145, 0.1682, 0.1951, 0.2264, 0.2626, 0.3047,
  0.3535, 0.4101, 0.4758, 0.552, 0.6404, 0.743, 0.862, 1.0]

/-- `TeensyUSBAudioMidi::sidetonevolume`: clamp the step to `0..31`,
store `VolTab[level]` in `sine_level` and set the oscillator
amplitude. -/
def sidetonevolume (s : PState) (level : Int) : PState × List Effect :=
  let l1 := if level < 0 then 0 else level
  let l2 := if l1 > 31 then 31 else l1
  let a := VolTab.getD l2.toNat 0
  ({ s with sine_level := a }, [Effect.sineAmplitude a])

/-- An inbound USB-MIDI message as seen by `TeensyUSBAudioMidi::midi`:
its type (control change or not), channel, controller number (`data1` =
command id) and 7-bit payload (`data2`). -/
structure MidiMsg where
  isControlChange : Bool
  channel : Nat
  data1 : Nat
  data2 : Nat
  deriving DecidableEq, Repr

/-- One message of `TeensyUSBAudioMidi::midi`'s loop: messages that are
not control changes on the recognized channel are swallowed; command 0
stores the payload in the `lsb_data` accumulator; commands 5, 6 and 16
combine `(data << 7) | lsb_data` back into `lsb_data` and apply it as
side-tone amplitude, side-tone frequency, or codec volume; command 4
sets the speed; anything else is ignored.  Returns the new `lsb_data`
and the emitted effects.  (The `sine_level` shadow store of command 5
is not tracked: nothing in the sources reads it.) -/
def midiStep (s : PState) (lsb : Nat) (m : MidiMsg) : Nat × List Effect :=
  if m.isControlChange = true ∧ m.channel = s.midi_ctrl then
    match m.data1 with
    | 0 => (m.data2, [])
    | 4 => (lsb, cwspeed s (Int.ofNat m.data2))
    | 5 =>
        let l := (m.data2 <<< 7) ||| lsb
        (l, [Effect.sineAmplitude ((l : Rat) / 16384)])
    | 6 =>
        let l := (m.data2 <<< 7) ||| lsb
        (l, sidetonefrequency s (Int.ofNat l))
    | 16 =>
        let l := (m.data2 <<< 7) ||| lsb
        (l, [Effect.codecVolume ((l : Rat) / 16384)])
    | _ => (lsb, [])
  else (lsb, [])

/-- `TeensyUSBAudioMidi::midi` over a whole queue of inbound messages,
threading the static `lsb_data` accumulator. -/
def midiRun (s : PState) : Nat → List MidiMsg → Nat × List Effect
  | lsb, [] => (lsb, [])
  | lsb, m :: ms =>
      let r := midiStep s lsb m
      let rest := midiRun s r.1 ms
      (rest.1, r.2 ++ rest.2)

/-- The low-passed value of `TeensyUSBAudioMidi::analogDenoise`:
`newval = (15 * *value) / 16 + analogRead(pin)`, clamped to 16368. -/
def denoiseNewval (value raw : Nat) : Nat :=
  let n := 15 * value / 16 + raw
  if n > 16368 then 16368 else n

/-- `midpoint = 390 + 780 * *old`, the midpoint of the bucket of the
previously reported step. -/
def denoiseMidpoint (old : Nat) : Nat := 390 + 780 * old

/-- `TeensyUSBAudioMidi::analogDenoise` (the `DL1YCF_POTS` version):
exponential low-pass of the raw reading, then a hysteresis quantizer —
a new step (`newval / 780`) is reported only when the filtered value
leaves the 600-wide band around the midpoint of the previous step's
bucket.  Returns (changed, new filtered value, new step). -/
def analogDenoise (pin : Int) (value old raw : Nat) : Bool × Nat × Nat :=
  if pin < 0 then (false, value, old)
  else
    let newval := denoiseNewval value raw
    let midpoint := denoiseMidpoint old
    if newval > midpoint + 600 ∨ (midpoint > 780 ∧ newval + 600 < midpoint) then
      (true, newval, newval / 780)
    else
      (false, newval, old)

/-- The per-`update`-cycle state of the `src/src/TeensyAudioTone.h`
variant of the mixer: tone flag, hang-time count and window index. -/
structure KeyerToneState where
  tone : Bool
  hangtime : Nat
  windowindex : Nat
  deriving DecidableEq, Repr

/-- `SAMPLES_PER_MSEC = AUDIO_SAMPLE_RATE_EXACT/1000.0` with the
Teensy 4.x exact sample rate 44100.0. -/
def SAMPLES_PER_MSEC : Rat := 44100 / 1000

/-- `TeensyAudioTone::milliseconds2count`: clamp negative durations to
zero, convert to samples, truncate, add 7, shift right by 3 (round up
to blocks of 8 samples), and saturate at 65535. -/
def milliseconds2count (milliseconds : Rat) : Nat :=
  let ms := if milliseconds < 0 then 0 else milliseconds
  let c := ((Rat.floor (ms * SAMPLES_PER_MSEC)).toNat + 7) >>> 3
  if c > 65535 then 65535 else c

/-- `TeensyAudioTone::setHangTime` from `src/src/TeensyAudioTone.h`:
stores the recomputed count in `hangtime` and calls `speed_set(13)`. -/
def TeensyAudioTone.setHangTime (s : KeyerToneState) (milliseconds : Rat) :
    KeyerToneState × List Effect :=
  ({ s with hangtime := milliseconds2count milliseconds },
   [Effect.speed_set 13])

/-- C1: after the PTT mute is released (which `ptt` does through
`muteAudioIn` when `mute_on_ptt` is set), pass-through audio stays
silent for exactly the configured number `M` of trailing blocks,
decrementing the counter once per executed cycle, and pass-through
resumes unmodified on the block following the count reaching zero. -/
theorem claim_C1_trailing_mute (M : Nat) (m : MuteState) (hM : m.hangtime = M)
    (pre : List (List Sample)) (hpre : pre.length = M) (lastB : List Sample)
    (bs : List (List Sample)) (s : PState) (hmp : s.mute_on_ptt = true) :
    (runMute (TeensyAudioTone.muteAudioIn m false) (pre ++ [lastB])).2 =
        pre.map (fun b => List.replicate b.length 0) ++ [lastB] ∧
    (runMute (TeensyAudioTone.muteAudioIn m false) bs).1.muteCounter =
        M - bs.length ∧
    Effect.muteAudioIn 0 ∈ ptt s 0 := by
  have hrel : TeensyAudioTone.muteAudioIn m false =
      (⟨false, M, m.hangtime⟩ : MuteState) := by
    simp [TeensyAudioTone.muteAudioIn, hM]
  refine ⟨?_, ?_, ?_⟩
  · rw [hrel, ← hpre]
    exact runMute_trailing lastB pre m.hangtime
  · rw [hrel]
    exact runMute_counter bs M m.hangtime
  · simp [ptt, hmp]

/-- Witness for C1 with a hang time of two blocks. -/
theorem claim_C1_trailing_mute_witness :
    (runMute (TeensyAudioTone.muteAudioIn ⟨true, 5, 2⟩ false)
        (([[1], [2, 3]] : List (List Sample)) ++ [[4]])).2 =
      ([[1], [2, 3]] : List (List Sample)).map
          (fun b => List.replicate b.length 0) ++ [[4]] ∧
    (runMute (TeensyAudioTone.muteAudioIn ⟨true, 5, 2⟩ false)
        ([[9]] : List (List Sample))).1.muteCounter =
      2 - ([[9]] : List (List Sample)).length ∧
    Effect.muteAudioIn 0 ∈ ptt ⟨2, 1, 1, -1, -1, -1, true, 0⟩ 0 :=
  claim_C1_trailing_mute 2 ⟨true, 5, 2⟩ rfl [[1], [2, 3]] rfl [4] [[9]]
    ⟨2, 1, 1, -1, -1, -1, true, 0⟩ rfl

/-- C2 counterexample: with the side-tone volume set to step 0 the
stored amplitude is exactly 0 — below any near-zero threshold — yet
`key(1)` still switches the Tone Envelope Mixer on (`setTone 1` is
emitted): the source forwards the tone-on event unconditionally, so the
claimed suppression does not exist in the code. -/
theorem claim_C2_key_counterexample :
    (sidetonevolume ⟨2, 1, 1, -1, -1, -1, true, 1⟩ 0).1.sine_level = 0 ∧
    Effect.setTone 1 ∈ key (sidetonevolume ⟨2, 1, 1, -1, -1, -1, true, 1⟩ 0).1 1 := by
  decide

/-- C2 (amended): every call `key(state)` forwards the tone event to
the Tone Envelope Mixer unconditionally — regardless of the current
side-tone volume — and the outward remote key notification is sent
whenever the remote note and channel are enabled. -/
theorem claim_C2_key_forwards_unconditionally (s : PState) (state : Int) :
    Effect.setTone state ∈ key s state ∧
    (0 ≤ s.midi_cw → 0 ≤ s.midi_chan →
      Effect.sendNoteOn s.midi_cw (if state ≠ 0 then 127 else 0) s.midi_chan
        ∈ key s state) := by
  constructor
  · simp [key]
  · intro h1 h2
    simp [key, if_pos (And.intro h1 h2)]

/-- Witness for the amended C2 with volume 0 and reporting enabled. -/
theorem claim_C2_key_forwards_unconditionally_witness :
    Effect.setTone 1 ∈ key ⟨2, 1, 1, -1, -1, -1, true, 0⟩ 1 ∧
    (0 ≤ (1 : Int) ∧ 0 ≤ (1 : Int)) ∧
    Effect.sendNoteOn 1 (if (1 : Int) ≠ 0 then 127 else 0) 1
      ∈ key ⟨2, 1, 1, -1, -1, -1, true, 0⟩ 1 :=
  ⟨(claim_C2_key_forwards_unconditionally ⟨2, 1, 1, -1, -1, -1, true, 0⟩ 1).1,
   ⟨by decide, by decide⟩,
   (claim_C2_key_forwards_unconditionally ⟨2, 1, 1, -1, -1, -1, true, 0⟩ 1).2
     (by decide) (by decide)⟩

/-- C3 counterexample: at 20 wpm the outward speed report computed by
`cwspeed` carries the wire value `(127*20-97)/59 = 41`, not 39; the
claim's number 39 is wrong (the claimed rounding formula itself also
gives 41). -/
theorem claim_C3_speed_report_counterexample :
    Effect.sendControlChange 0 41 1 ∈ cwspeed ⟨2, 1, 1, -1, 0, -1, true, 0⟩ 20 ∧
    clamp0_127 (Int.tdiv (127 * 20 - 97) 59) = 41 ∧
    (41 : Int) ≠ 39 := by
  decide

/-- C3 (amended): setting the speed to 20 wpm makes the outward speed
report carry the wire value 41, computed by the inverse affine mapping
`clamp(0,127, (127*speed - 97) div 59)` (integer division); the speed
itself is forwarded to the keyer. -/
theorem claim_C3_speed_report (s : PState) (hsp : 0 ≤ s.midi_speed)
    (hch : 0 ≤ s.midi_chan) :
    cwspeed s 20 = [Effect.speed_set 20,
      Effect.sendControlChange s.midi_speed 41 s.midi_chan] ∧
    clamp0_127 (Int.tdiv (127 * 20 - 97) 59) = 41 := by
  constructor
  · have h41 : clamp0_127 (Int.tdiv 2443 59) = 41 := by decide
    simp [cwspeed, if_pos (And.intro hsp hch), h41]
  · decide

/-- Witness for the amended C3 with reporting enabled. -/
theorem claim_C3_speed_report_witness :
    cwspeed ⟨2, 1, 1, -1, 0, -1, true, 0⟩ 20 = [Effect.speed_set 20,
      Effect.sendControlChange 0 41 1] ∧
    clamp0_127 (Int.tdiv (127 * 20 - 97) 59) = 41 :=
  claim_C3_speed_report ⟨2, 1, 1, -1, 0, -1, true, 0⟩ (by decide) (by decide)

/-- C7: for an enabled channel (`pin ≥ 0`), while the low-passed value
stays within the 600-wide hysteresis band around the midpoint of the
previous step's bucket, `analogDenoise` reports no change and leaves
the stored step untouched; a change is reported only when the filtered
value lies strictly beyond that margin. -/
theorem claim_C7_denoise_hysteresis (pin : Int) (value old raw : Nat)
    (hpin : 0 ≤ pin) :
    ((denoiseNewval value raw ≤ denoiseMidpoint old + 600 ∧
      denoiseMidpoint old ≤ denoiseNewval value raw + 600) →
      analogDenoise pin value old raw = (false, denoiseNewval value raw, old)) ∧
    ((analogDenoise pin value old raw).1 = true →
      denoiseMidpoint old + 600 < denoiseNewval value raw ∨
      denoiseNewval value raw + 600 < denoiseMidpoint old) := by
  have hnp : ¬ pin < 0 := by omega
  constructor
  · rintro ⟨hu, hl⟩
    unfold analogDenoise
    rw [if_neg hnp, if_neg]
    refine not_or.mpr ⟨by omega, ?_⟩
    rintro ⟨h7, hlt⟩
    omega
  · intro h
    unfold analogDenoise at h
    rw [if_neg hnp] at h
    by_cases hc : denoiseNewval value raw > denoiseMidpoint old + 600 ∨
        (denoiseMidpoint old > 780 ∧
          denoiseNewval value raw + 600 < denoiseMidpoint old)
    · rcases hc with hgt | hlt
      · exact Or.inl hgt
      · exact Or.inr hlt.2
    · rw [if_neg hc] at h
      simp at h

/-- Witness for C7: step 5 (midpoint 4290), filtered value 4290 — in
band, so no change and the step is kept. -/
theorem claim_C7_denoise_hysteresis_witness :
    (0 : Int) ≤ 3 ∧
    (denoiseNewval 4288 270 ≤ denoiseMidpoint 5 + 600 ∧
      denoiseMidpoint 5 ≤ denoiseNewval 4288 270 + 600) ∧
    analogDenoise 3 4288 5 270 = (false, denoiseNewval 4288 270, 5) :=
  ⟨by decide, by decide,
   (claim_C7_denoise_hysteresis 3 4288 5 270 (by decide)).1 (by decide)⟩

/-- C8: the control sequence `SET_ACCUM(42)` (command 0) followed by
`COMBINE_AND_APPLY(FREQ, 3)` (command 6) on the recognized control
channel builds `(3 <<< 7) ||| 42 = 426` and applies 426 Hz as the
side-tone frequency. -/
theorem claim_C8_accumulator_frequency :
    (midiRun ⟨2, 1, 1, -1, -1, -1, true, 0⟩ 0
        [⟨true, 2, 0, 42⟩, ⟨true, 2, 6, 3⟩]).1 = 426 ∧
    Effect.sineFrequency 426 ∈ (midiRun ⟨2, 1, 1, -1, -1, -1, true, 0⟩ 0
        [⟨true, 2, 0, 42⟩, ⟨true, 2, 6, 3⟩]).2 ∧
    (3 <<< 7) ||| 42 = 426 := by
  decide

/-- C9: `setHangTime(ms)` recomputes `hangtime` from the duration, has
the side effect of calling the external speed consumer `speed_set`
with the constant 13, and touches no other field. -/
theorem claim_C9_setHangTime_speed13 (s : KeyerToneState) (ms : Rat) :
    (TeensyAudioTone.setHangTime s ms).1.hangtime = milliseconds2count ms ∧
    (TeensyAudioTone.setHangTime s ms).2 = [Effect.speed_set 13] ∧
    (TeensyAudioTone.setHangTime s ms).1.tone = s.tone ∧
    (TeensyAudioTone.setHangTime s ms).1.windowindex = s.windowindex :=
  ⟨rfl, rfl, rfl, rfl⟩

/-- C10: a combining command (5 = amplitude, 6 = frequency, 16 = master
volume) stores the full combined 14-bit value back into the shared
accumulator, so a second combining command without an intervening
`SET_ACCUM` ORs its shifted payload into the stale combined value. -/
theorem claim_C10_accumulator_stale (s : PState) (lsb d1 d2 k1 k2 : Nat)
    (h1 : k1 = 5 ∨ k1 = 6 ∨ k1 = 16) (h2 : k2 = 5 ∨ k2 = 6 ∨ k2 = 16) :
    (midiRun s lsb [⟨true, s.midi_ctrl, k1, d1⟩]).1 = (d1 <<< 7) ||| lsb ∧
    (midiRun s lsb [⟨true, s.midi_ctrl, k1, d1⟩, ⟨true, s.midi_ctrl, k2, d2⟩]).1 =
      (d2 <<< 7) ||| ((d1 <<< 7) ||| lsb) := by
  rcases h1 with rfl | rfl | rfl <;> rcases h2 with rfl | rfl | rfl <;>
    simp [midiRun, midiStep]

/-- Witness for C10: amplitude then frequency, without `SET_ACCUM` in
between. -/
theorem claim_C10_accumulator_stale_witness :
    (midiRun ⟨2, 1, 1, -1, -1, -1, true, 0⟩ 42 [⟨true, 2, 5, 1⟩]).1 =
      (1 <<< 7) ||| 42 ∧
    (midiRun ⟨2, 1, 1, -1, -1, -1, true, 0⟩ 42
        [⟨true, 2, 5, 1⟩, ⟨true, 2, 6, 2⟩]).1 =
      (2 <<< 7) ||| ((1 <<< 7) ||| 42) :=
  claim_C10_accumulator_stale ⟨2, 1, 1, -1, -1, -1, true, 0⟩ 42 1 2 5 6
    (Or.inl rfl) (Or.inr (Or.inl rfl))

end TWKE
